import Mathlib

/-!
Verification development for the LearnCache offline snapshot engine.

The definitions below are a shallow embedding of the TypeScript sources:
  * `src/src/services/DownloadService.ts` (namespace `DownloadService`)
  * `src/src/components/Loading.tsx`, which holds `TutorialCrawlerService`
    (namespace `TutorialCrawlerService`)

Platform primitives (the WHATWG `URL` constructor, `Date.now()`, the file
system, the network) are modelled as explicit inputs: a URL string comes
paired with its parse result (`UrlInput`), the current time is a `Nat`
parameter, the file system is an association list from paths to contents,
and fetch results are oracle functions supplied to each operation.
-/

/-- Result of a successful `new URL(...)` call: the fields the sources read. -/
structure ParsedUrl where
  pathname : String
deriving DecidableEq, Repr

/-- Result of `new URL(...)` on a full URL, as read by `isValidPageLink`. -/
structure ParsedFullUrl where
  hostname : String
  pathname : String
deriving DecidableEq, Repr

/-- A URL string together with the outcome of `new URL(url)`: `parsed = none`
models the constructor throwing (e.g. on a relative reference with no base). -/
structure UrlInput where
  raw : String
  parsed : Option ParsedUrl
deriving DecidableEq, Repr

/-- Split a character list at every occurrence of `sep`, as JS
`s.split(sep)` does for a one-character separator. -/
def splitOnChar (sep : Char) : List Char → List (List Char)
  | [] => [[]]
  | c :: rest =>
    let r := splitOnChar sep rest
    if c = sep then [] :: r
    else match r with
      | h :: t => (c :: h) :: t
      | [] => [[c]]

/-- JS `s.split(sep).pop()`: the last element of the split. -/
def jsSplitPop (s : String) (sep : Char) : String :=
  String.mk ((splitOnChar sep s.data).getLastD [])

/-- JS `s.split(sep)[1] || ''`. -/
def jsSplitIdx1 (s : String) (sep : Char) : String :=
  String.mk ((splitOnChar sep s.data).getD 1 [])

/-- JS `s.trim()`. -/
def jsTrim (s : String) : String :=
  String.mk (((s.data.dropWhile Char.isWhitespace).reverse.dropWhile
    Char.isWhitespace).reverse)

/-- JS `x || d` for strings: `d` when `x` is the empty string (falsy). -/
def jsOrDefault (x d : String) : String :=
  if x = "" then d else x

/-- JS `a || b` where `a`, `b` are `getAttribute` results (null or string);
the empty string is falsy. -/
def jsOrAttr : Option String → Option String → Option String
  | some s, b => if s = "" then b else some s
  | none, b => b

/-- Lower-case a string, as JS `toLowerCase()` on ASCII data. -/
def toLowerStr (s : String) : String :=
  String.mk (s.data.map Char.toLower)

/-- Does `l` contain `pat` as a contiguous sublist? (JS `String.includes`.) -/
def listContainsSub (l pat : List Char) : Bool :=
  (List.range (l.length + 1)).any (fun i => (l.drop i).take pat.length == pat)

/-- JS `s.includes(pat)`. -/
def strIncludes (s pat : String) : Bool :=
  listContainsSub s.data pat.data

/-- The file system: an association list from absolute paths to file contents. -/
abbrev FileSys := List (String × String)

/-- `RNFS.exists(path)`. -/
def fsExists (fs : FileSys) (p : String) : Bool :=
  fs.any (fun e => e.1 == p)

/-- `RNFS.writeFile(path, content)`: overwrites any previous file at `path`. -/
def fsWrite (fs : FileSys) (p c : String) : FileSys :=
  (p, c) :: fs.filter (fun e => !(e.1 == p))

/-- Content of the file at `p`, when present. -/
def fsRead (fs : FileSys) (p : String) : Option String :=
  (fs.find? (fun e => e.1 == p)).map (fun e => e.2)

namespace DownloadService

/-- `DownloadService.extractFileName` (DownloadService.ts lines 271-286).
`now` is the value `Date.now()` would return in the `catch` branch. -/
def extractFileName (u : UrlInput) (now : Nat) : String :=
  match u.parsed with
  | some p =>
    let fileName := jsOrDefault (jsSplitPop p.pathname '/') "asset"
    if fileName.data.contains '.' then fileName else fileName ++ ".asset"
  | none => "asset_" ++ toString now

/-- The `(sourceUrl, localFileName)` mapping that one run of
`processHtmlForOffline` (lines 191-225) applies to the asset references
matched in the document, in match order; `now` is the run's clock. -/
def rewriteMapping (assetRefs : List UrlInput) (now : Nat) : List (String × String) :=
  assetRefs.map (fun u => (u.raw, extractFileName u now))

/-- The asset-writing loop of `DownloadService.downloadAssets`
(lines 158-188): each asset is fetched and, on success, written to
`assets/<fileName>` with no existence check; fetch failures are skipped. -/
def downloadAssetsFs (fetch : UrlInput → Option String) (now : Nat) :
    FileSys → List UrlInput → FileSys
  | fs, [] => fs
  | fs, u :: rest =>
    let name := "assets/" ++ extractFileName u now
    let fs' := match fetch u with
      | some content => fsWrite fs name content
      | none => fs
    downloadAssetsFs fetch now fs' rest

end DownloadService

namespace TutorialCrawlerService

/-- `TutorialCrawlerService.extractFileName` (Loading.tsx lines 473-481). -/
def extractFileName (u : UrlInput) : String :=
  match u.parsed with
  | some p => jsOrDefault (jsSplitPop p.pathname '/') "file"
  | none => jsOrDefault (jsSplitPop u.raw '/') "file"

/-- The `(sourceUrl, localFileName)` mapping one run of
`processPageForOffline` applies to the asset references it rewrites. -/
def rewriteMapping (assetRefs : List UrlInput) : List (String × String) :=
  assetRefs.map (fun u => (u.raw, extractFileName u))

/-- The asset-writing loop of `downloadPageAssets` (Loading.tsx lines
510-530): each asset's local path is `assets/<fileName>`; the write is
skipped entirely when a file of that name already exists; otherwise the
asset is fetched and written on HTTP 200 (`fetch u = some content`). -/
def downloadPageAssetsFs (fetch : UrlInput → Option String) :
    FileSys → List UrlInput → FileSys
  | fs, [] => fs
  | fs, u :: rest =>
    let name := "assets/" ++ extractFileName u
    let fs' := if fsExists fs name then fs
      else match fetch u with
        | some content => fsWrite fs name content
        | none => fs
    downloadPageAssetsFs fetch fs' rest

/-- Outcome of one `downloadTutorial` run (Loading.tsx lines 90-177):
the terminal status string reported through `reportProgress` and the
number of pages recorded as downloaded.

`setupOk` models directory creation succeeding; `indexOk` models the
index/metadata writes after the page loop succeeding.  Per-page fetch
failures are caught inside the loop (the page is pushed with
`downloaded: false`) and never raise; after the loop the final report is
unconditionally `'completed'`.  Only an exception escaping to the
`catch` handler produces the `'failed'` report. -/
def downloadTutorialRun (setupOk indexOk : Bool) (pageResults : List Bool) :
    String × Nat :=
  if setupOk then
    let downloaded := (pageResults.filter (fun b => b)).length
    if indexOk then ("completed", downloaded) else ("failed", downloaded)
  else ("failed", 0)

end TutorialCrawlerService

/-- An observable side effect performed by an orchestration entry point,
in program order. -/
inductive Effect
  | mkdirE (path : String)
  | metaE (siteId status : String)
  | fetchE (url : String)
deriving DecidableEq, Repr

namespace DownloadService

/-- Admission and opening effects of `downloadSite` (DownloadService.ts
lines 18-56): when `downloadInProgress` is set the call throws
immediately, before creating any directory or writing any metadata;
otherwise it creates the site directory, records the `'downloading'`
metadata, and fetches the main page. -/
def downloadSiteStart (downloadInProgress : Bool) (siteId sitePath url : String) :
    Except String (List Effect) :=
  if downloadInProgress then
    Except.error "Another download is already in progress"
  else
    Except.ok [Effect.mkdirE sitePath, Effect.metaE siteId "downloading", Effect.fetchE url]

/-- Bookkeeping fields of the `DownloadService` singleton. -/
structure ServiceState where
  downloadInProgress : Bool
  currentDownloadId : Option String
  hasProgressCallback : Bool
deriving DecidableEq, Repr

/-- The idle bookkeeping state: no download in flight. -/
def idleState : ServiceState :=
  ⟨false, none, false⟩

/-- State evolution of one `downloadSite` call (lines 18-93).  When the
gate is closed the call throws before touching any field.  Otherwise the
flag, callback and current id are set, the body runs (`bodyOk` models
whether any stage of the try block throws), and the `finally` block
clears all three fields on both the success and the failure path. -/
def downloadSiteRun (st : ServiceState) (hasCallback : Bool) (siteId : String)
    (bodyOk : Bool) : ServiceState × Except String Unit :=
  if st.downloadInProgress then
    (st, Except.error "Another download is already in progress")
  else
    let entered : ServiceState := ⟨true, none, hasCallback⟩
    let running : ServiceState := { entered with currentDownloadId := some siteId }
    let result : Except String Unit :=
      if bodyOk then Except.ok () else Except.error "Failed to download site"
    let afterFinally : ServiceState :=
      { running with downloadInProgress := false, currentDownloadId := none,
                     hasProgressCallback := false }
    (afterFinally, result)

end DownloadService

namespace TutorialCrawlerService

/-- Admission and opening effects of `downloadTutorial` (Loading.tsx
lines 90-98).  The parameter `downloadInProgress` is the single-flight
flag of the `DownloadService` singleton: `downloadTutorial` never reads
it (and `TutorialCrawlerService` keeps no flag of its own), so the call
proceeds straight to creating the tutorial directory. -/
def downloadTutorialStart (_downloadInProgress : Bool) (tutorialPath : String) :
    Except String (List Effect) :=
  Except.ok [Effect.mkdirE tutorialPath]

end TutorialCrawlerService

/-- An HTTP request as issued by the engine: target, headers, and the
timeout applied to it (none when no timeout mechanism wraps the call). -/
structure HttpRequest where
  url : String
  headers : List (String × String)
  timeoutMs : Option Nat
deriving DecidableEq, Repr

namespace DownloadService

/-- The constant identifying user-agent string (DownloadService.ts line 296). -/
def userAgentValue : String :=
  "LearnCache/1.0 (Educational Content Downloader)"

/-- The default per-request timeout of `fetchWithTimeout` (line 288). -/
def defaultTimeoutMs : Nat := 10000

/-- The request built by `fetchWithTimeout` (lines 288-308): the
user-agent header plus an abort timer of `timeoutMs` milliseconds. -/
def fetchWithTimeoutRequest (url : String) (timeoutMs : Nat) : HttpRequest :=
  ⟨url, [("User-Agent", userAgentValue)], some timeoutMs⟩

/-- The main-page request of `performDownload` (line 106). -/
def mainPageRequest (url : String) : HttpRequest :=
  fetchWithTimeoutRequest url defaultTimeoutMs

/-- The per-asset request of `downloadAssets` (line 163). -/
def assetRequest (url : String) : HttpRequest :=
  fetchWithTimeoutRequest url defaultTimeoutMs

end DownloadService

namespace TutorialCrawlerService

/-- A plain `fetch(url)` call: no headers are supplied and no timeout
wraps the call. -/
def bareFetchRequest (url : String) : HttpRequest :=
  ⟨url, [], none⟩

/-- The seed-page request of `crawlSiteForTutorials` (Loading.tsx line 63). -/
def crawlSeedRequest (url : String) : HttpRequest :=
  bareFetchRequest url

/-- The entry-page request of `discoverTutorialPages` (line 241). -/
def discoverPagesRequest (url : String) : HttpRequest :=
  bareFetchRequest url

/-- The per-page request of `downloadTutorial` (line 119). -/
def tutorialPageRequest (url : String) : HttpRequest :=
  bareFetchRequest url

/-- The per-asset request of `downloadPageAssets` via
`RNBlobUtil.fetch('GET', url)` (lines 525 and 558): no headers, no timeout. -/
def tutorialAssetRequest (url : String) : HttpRequest :=
  ⟨url, [], none⟩

end TutorialCrawlerService

/-- One event delivered to the caller's progress callback
(`DownloadProgress` in `types`): label, unit counts, and the percentage. -/
structure ProgressEvent where
  label : String
  completedFiles : Nat
  totalFiles : Nat
  percent : Rat
deriving DecidableEq, Repr

namespace DownloadService

/-- `reportProgress` (DownloadService.ts lines 310-320): the percentage
is clamped from above with `Math.min(progress, 100)`; there is no lower
clamp. -/
def mkProgress (label : String) (completed total : Nat) (p : Rat) : ProgressEvent :=
  ⟨label, completed, total, min p 100⟩

/-- Progress events emitted by the asset loop of `downloadAssets`
(lines 154-188): `total` is the number of discovered assets, `completed`
the running success count; an event fires only after a successful asset
download, at percentage `66 + (completed / total) * 34`; failed assets
emit nothing and do not advance `completed`. -/
def assetLoopEvents (total : Nat) : List (String × Bool) → Nat → List ProgressEvent
  | [], _ => []
  | (name, ok) :: rest, completed =>
    if ok then
      mkProgress ("Downloaded " ++ name) (completed + 1) total
          (66 + ((completed + 1 : Rat) / total) * 34)
        :: assetLoopEvents total rest (completed + 1)
    else assetLoopEvents total rest completed

/-- The full event trace of one `performDownload` attempt (lines
95-128) together with whether the attempt succeeded.  `mainFetchOk`
models the main-page fetch and write: when it fails the error escapes
after the initial `'Starting download...'` report and no further event
— in particular no terminal event — is delivered (the `catch` in
`downloadSite` reports nothing).  `assets` lists the discovered assets
as `(fileName, fetchSucceeded)` pairs. -/
def performDownloadEvents (mainFetchOk : Bool) (assets : List (String × Bool)) :
    List ProgressEvent × Bool :=
  let start := mkProgress "Starting download..." 0 1 0
  if mainFetchOk then
    ([start,
      mkProgress "Processing main page..." 1 3 33,
      mkProgress "Downloading assets..." 2 3 66]
      ++ assetLoopEvents assets.length assets 0
      ++ [mkProgress "Download completed!" 3 3 100], true)
  else
    ([start], false)

/-- The one terminal event `DownloadService` ever emits is the
`'Download completed!'` report (line 121). -/
def isTerminalEvent (e : ProgressEvent) : Bool :=
  e.label = "Download completed!"

end DownloadService

/-- One element of a well-formed parsed document, restricted to the
attributes the rewrite paths inspect (`rel`, `src`, `href`); `none`
models an absent attribute.  For the textual fallback, elements are
taken to serialize with the `src` attribute before the `href`
attribute. -/
structure HtmlElement where
  tag : String
  rel : Option String
  src : Option String
  href : Option String
deriving DecidableEq, Repr

namespace TutorialCrawlerService

/-- The extension table of `isAssetUrl` (Loading.tsx lines 483-487). -/
def assetExtensions : List String :=
  [".css", ".js", ".png", ".jpg", ".jpeg", ".gif", ".svg", ".ico",
   ".woff", ".woff2", ".ttf", ".eot"]

/-- `isAssetUrl(url)`: some extension occurs as a substring of the
lower-cased url. -/
def isAssetUrl (url : String) : Bool :=
  assetExtensions.any (fun ext => strIncludes (toLowerStr url) ext)

/-- `extractFileName` applied to a raw attribute string during
rewriting; `parseUrl` is the `new URL` oracle shared by one rewrite run
(the `catch` branch falls back to splitting the raw string). -/
def extractFileNameStr (parseUrl : String → Option ParsedUrl) (url : String) : String :=
  extractFileName ⟨url, parseUrl url⟩

/-- An element matched by the structured path's selector
`img, link[rel="stylesheet"], script[src]` (line 304). -/
def selectedByStructured (e : HtmlElement) : Bool :=
  e.tag = "img" || (e.tag = "link" && e.rel = some "stylesheet")
    || (e.tag = "script" && e.src.isSome)

/-- Asset references rewritten by the structured path of
`processPageForOffline` (lines 298-332): for each selected element, the
effective attribute `src || href` is rewritten to
`./assets/<fileName>` when `isAssetUrl` accepts it; the result pairs
the source attribute value with the local file name, in document
order. -/
def structuredAssets (parseUrl : String → Option ParsedUrl) :
    List HtmlElement → List (String × String)
  | [] => []
  | e :: rest =>
    let tail := structuredAssets parseUrl rest
    if selectedByStructured e then
      match jsOrAttr e.src e.href with
      | some v => if isAssetUrl v then (v, extractFileNameStr parseUrl v) :: tail else tail
      | none => tail
    else tail

/-- The alternation `(css|js|png|jpg|jpeg|gif|svg|ico)` of the fallback
regex (line 339), as character lists. -/
def fallbackExtensions : List (List Char) :=
  ["css".data, "js".data, "png".data, "jpg".data, "jpeg".data, "gif".data,
   "svg".data, "ico".data]

/-- Does `'.' :: ext` occur in `cs` starting at index `i`? -/
def extMatchAt (cs : List Char) (i : Nat) (ext : List Char) : Bool :=
  (cs.drop i).take (ext.length + 1) == ('.' :: ext)

/-- The capture group of the fallback regex
`(?:src|href)=["']([^"']+\.(css|js|png|jpg|jpeg|gif|svg|ico))[^"']*["']`
applied to one attribute value: the greedy `[^"']+` backtracks to the
last position where `.` plus a listed extension occurs with at least
one character before it, and the group captures up to the end of that
extension; `none` when the pattern does not match the value. -/
def fallbackCapture (v : String) : Option String :=
  let cs := v.data
  let ends := (List.range cs.length).filterMap fun i =>
    if 1 ≤ i then
      (fallbackExtensions.filterMap fun ext =>
        if extMatchAt cs i ext then some (i + 1 + ext.length) else none).head?
    else none
  ends.getLast?.map fun len => String.mk (cs.take len)

/-- Asset references rewritten by the regex fallback
`processPageForOfflineFallback` (lines 334-353) on the serialization of
a well-formed document: every `src` or `href` attribute value in which
the pattern matches contributes its captured url and the file name the
substitution installs. -/
def fallbackAssets (parseUrl : String → Option ParsedUrl) :
    List HtmlElement → List (String × String)
  | [] => []
  | e :: rest =>
    (([e.src, e.href].filterMap id).filterMap fun v =>
        (fallbackCapture v).map fun u => (u, extractFileNameStr parseUrl u))
      ++ fallbackAssets parseUrl rest

/-- Elements on which the two rewrite paths are claimed to agree: a
structured-selected element carrying exactly one of `src`/`href` whose
value both cleanly matches the fallback pattern in full and passes
`isAssetUrl`, or an element carrying neither attribute. -/
def agreeableElement (e : HtmlElement) : Bool :=
  match e.src, e.href with
  | some v, none =>
    selectedByStructured e && fallbackCapture v == some v && isAssetUrl v
  | none, some v =>
    selectedByStructured e && fallbackCapture v == some v && isAssetUrl v
  | none, none => true
  | some _, some _ => false

end TutorialCrawlerService

/-- `TutorialPage` from `types` (src/unnamed/part_009). -/
structure TutorialPage where
  id : String
  title : String
  url : String
  order : Nat
  downloaded : Bool
deriving DecidableEq, Repr

/-- `Tutorial` from `types` (src/unnamed/part_009), with the fields
`discoverTutorials` populates. -/
structure Tutorial where
  id : String
  title : String
  baseUrl : String
  pages : List TutorialPage
  totalPages : Nat
  downloadedPages : Nat
  category : String
  difficulty : String
  estimatedSize : Nat
deriving DecidableEq, Repr

/-- The base64 alphabet used by `btoa`. -/
def base64Alphabet : List Char :=
  "ABCDEFGHIJKLMNOPQRSTUVWXYZabcdefghijklmnopqrstuvwxyz0123456789+/".data

/-- Group a byte list into 6-bit values, as base64 encoding does. -/
def toSextets : List Nat → List Nat
  | [] => []
  | [b1] => [b1 / 4, b1 % 4 * 16]
  | [b1, b2] => [b1 / 4, b1 % 4 * 16 + b2 / 16, b2 % 16 * 4]
  | b1 :: b2 :: b3 :: rest =>
    b1 / 4 :: (b1 % 4 * 16 + b2 / 16) :: (b2 % 16 * 4 + b3 / 64) :: b3 % 64
      :: toSextets rest

/-- The `=` padding base64 appends for a byte count `n`. -/
def base64Pad (n : Nat) : String :=
  if n % 3 = 1 then "==" else if n % 3 = 2 then "=" else ""

/-- JS `btoa(s)` on a Latin-1 string. -/
def btoa (s : String) : String :=
  let bytes := s.data.map Char.toNat
  String.mk ((toSextets bytes).map fun k => base64Alphabet.getD k 'A')
    ++ base64Pad bytes.length

/-- JS `s.slice(0, n)`. -/
def jsSlice (s : String) (n : Nat) : String :=
  String.mk (s.data.take n)

/-- JS `s.replace(/[^a-zA-Z0-9]/g, '')`. -/
def keepAlnum (s : String) : String :=
  String.mk (s.data.filter fun c => c.isAlpha || c.isDigit)

namespace TutorialCrawlerService

/-- `generateTutorialId` (Loading.tsx lines 463-467). -/
def generateTutorialId (title url : String) : String :=
  toLowerStr (keepAlnum title) ++ "_" ++ jsSlice (btoa url) 8

/-- `guessDifficulty` (lines 451-461). -/
def guessDifficulty (title : String) : String :=
  let t := toLowerStr title
  if strIncludes t "beginner" || strIncludes t "basic" || strIncludes t "intro" then
    "Beginner"
  else if strIncludes t "advanced" || strIncludes t "expert" || strIncludes t "master" then
    "Advanced"
  else "Intermediate"

/-- `isValidTutorialLink` (lines 421-432). -/
def isValidTutorialLink (title url : String) : Bool :=
  let tl := toLowerStr title
  let ul := toLowerStr url
  (strIncludes tl "tutorial" || strIncludes tl "guide" || strIncludes tl "course")
    && !strIncludes tl "advertisement"
    && !strIncludes tl "sponsor"
    && !strIncludes ul "ads"
    && !strIncludes ul "promo"

/-- `isValidPageLink` (lines 434-449): same host as the tutorial base
and a path containing the base's first path segment; `false` when
either URL fails to parse.  `parseFull` is the `new URL` oracle. -/
def isValidPageLink (parseFull : String → Option ParsedFullUrl)
    (pageUrl baseUrl : String) : Bool :=
  match parseFull pageUrl, parseFull baseUrl with
  | some p, some b =>
    if p.hostname ≠ b.hostname then false
    else strIncludes p.pathname (jsSplitIdx1 b.pathname '/')
  | _, _ => false

/-- One regex match of the page-link patterns of
`discoverTutorialPages`: the captured link target and page title. -/
structure PageMatch where
  url : String
  title : String
deriving DecidableEq, Repr

/-- `discoverTutorialPages` (Loading.tsx lines 239-296).  The entry
page is always seeded at order 0; the matches the page patterns yield
(`ms`, in match order across the three patterns) are appended while the
page list stays below 50 entries; `fetchOk = false` models the entry
fetch throwing, which degrades to the single seeded page.  `resolve`
models `new URL(rel, base).href` with its identity fallback. -/
def discoverTutorialPages (parseFull : String → Option ParsedFullUrl)
    (resolve : String → String → String) (tutorialUrl tutorialTitle : String)
    (fetchOk : Bool) (ms : List PageMatch) : List TutorialPage :=
  let mainPage : TutorialPage :=
    ⟨generateTutorialId tutorialTitle tutorialUrl ++ "_main",
     tutorialTitle ++ " - Introduction", tutorialUrl, 0, false⟩
  if fetchOk then
    ms.foldl (fun pages m =>
      if pages.length < 50 then
        let pageUrl := resolve m.url tutorialUrl
        if isValidPageLink parseFull pageUrl tutorialUrl then
          pages ++ [⟨generateTutorialId tutorialTitle tutorialUrl ++ "_"
                       ++ toString pages.length,
                     jsTrim m.title, pageUrl, pages.length, false⟩]
        else pages
      else pages) [mainPage]
  else [mainPage]

/-- One regex match of the tutorial-link patterns of
`discoverTutorials`, tagged with the matching pattern's category. -/
structure CandidateMatch where
  url : String
  title : String
  category : String
deriving DecidableEq, Repr

/-- `discoverTutorials` (Loading.tsx lines 179-237): candidates are
filtered by `isValidTutorialLink`, de-duplicated by generated id
(first occurrence wins), expanded into page lists via
`discoverTutorialPages`, and the final list is `slice(0, 20)`. -/
def discoverTutorials (parseFull : String → Option ParsedFullUrl)
    (resolve : String → String → String) (baseUrl : String)
    (fetchOkOf : String → Bool) (pageMatchesOf : String → List PageMatch)
    (cands : List CandidateMatch) : List Tutorial :=
  (cands.foldl (fun tutorials c =>
    if isValidTutorialLink c.title c.url then
      let tutorialUrl := resolve c.url baseUrl
      let tid := generateTutorialId c.title tutorialUrl
      if tutorials.any (fun t => t.id = tid) then tutorials
      else
        let pages := discoverTutorialPages parseFull resolve tutorialUrl c.title
          (fetchOkOf tutorialUrl) (pageMatchesOf tutorialUrl)
        tutorials ++ [⟨tid, jsTrim c.title, tutorialUrl, pages, pages.length, 0,
                       c.category, guessDifficulty c.title, pages.length * 50000⟩]
    else tutorials) []).take 20

end TutorialCrawlerService

/-- The percentage sequence a list of progress events carries. -/
def eventPercents (l : List ProgressEvent) : List Rat :=
  l.map fun e => e.percent

/-! ## Fold invariants shared by the discovery bounds -/

/-- A fold whose step never grows an accumulator beyond `n` elements
keeps the result within `n` elements. -/
theorem foldl_length_le {α β : Type} (n : Nat) (f : List α → β → List α)
    (hf : ∀ acc b, acc.length ≤ n → (f acc b).length ≤ n) :
    ∀ (l : List β) (acc : List α), acc.length ≤ n → (l.foldl f acc).length ≤ n := by
  intro l
  induction l with
  | nil => intro acc h; simpa using h
  | cons b bs ih => intro acc h; exact ih _ (hf acc b h)

/-- A fold whose step preserves a property of every accumulator element
yields a result all of whose elements satisfy it. -/
theorem foldl_mem_invariant {α β : Type} (P : α → Prop) (f : List α → β → List α)
    (hf : ∀ acc b, (∀ t ∈ acc, P t) → ∀ t ∈ f acc b, P t) :
    ∀ (l : List β) (acc : List α), (∀ t ∈ acc, P t) → ∀ t ∈ l.foldl f acc, P t := by
  intro l
  induction l with
  | nil => intro acc h; simpa using h
  | cons b bs ih => intro acc h; exact ih _ (hf acc b h)

/-- The page list assembled by `discoverTutorialPages` never exceeds 50
entries: the seed page plus appends guarded by `pages.length < 50`. -/
theorem discoverTutorialPages_length_le
    (parseFull : String → Option ParsedFullUrl)
    (resolve : String → String → String) (tutorialUrl tutorialTitle : String)
    (fetchOk : Bool) (ms : List TutorialCrawlerService.PageMatch) :
    (TutorialCrawlerService.discoverTutorialPages parseFull resolve tutorialUrl
      tutorialTitle fetchOk ms).length ≤ 50 := by
  rw [TutorialCrawlerService.discoverTutorialPages]
  cases fetchOk with
  | false => simp
  | true =>
    simp only [if_true]
    refine foldl_length_le 50 _ ?_ ms _ (by simp)
    intro acc m h
    by_cases h50 : acc.length < 50
    · simp only [h50, if_true]
      split
      · simp only [List.length_append, List.length_cons, List.length_nil]
        omega
      · exact h
    · simpa [h50] using h

/-! ## Claim C1: uniqueness of local file names within one snapshot -/

/-- C1, counterexample: the claim that two distinct asset source URLs
always receive distinct `localFileName` values is false.  The two
distinct URLs `https://a.com/x/style.css` and `https://a.com/y/style.css`
are both mapped to `style.css`: `extractFileName` keeps only the last
path segment and no hash of the source URL is ever appended. -/
theorem c1_distinct_names_counterexample :
    (⟨"https://a.com/x/style.css", some ⟨"/x/style.css"⟩⟩ : UrlInput)
        ≠ ⟨"https://a.com/y/style.css", some ⟨"/y/style.css"⟩⟩
    ∧ TutorialCrawlerService.extractFileName
        ⟨"https://a.com/x/style.css", some ⟨"/x/style.css"⟩⟩
      = TutorialCrawlerService.extractFileName
        ⟨"https://a.com/y/style.css", some ⟨"/y/style.css"⟩⟩ := by
  decide

/-- C1, amended: local file names are a deterministic function of the
source URL (its last path segment) but are not collision-resistant;
when two assets of one snapshot share a local name, the asset writer
keeps the file written for the first asset and skips the second, so the
file stored under the shared name deterministically holds the first
asset's content. -/
theorem c1_first_asset_wins (fetch : UrlInput → Option String) (u1 u2 : UrlInput)
    (body : String)
    (hname : TutorialCrawlerService.extractFileName u1
      = TutorialCrawlerService.extractFileName u2)
    (hfetch : fetch u1 = some body) :
    fsRead (TutorialCrawlerService.downloadPageAssetsFs fetch [] [u1, u2])
      ("assets/" ++ TutorialCrawlerService.extractFileName u1) = some body := by
  simp only [TutorialCrawlerService.downloadPageAssetsFs, hfetch, ← hname,
    fsExists, fsWrite, fsRead]
  simp [List.find?]

/-- C1 witness: `c1_first_asset_wins` at the colliding pair of
`c1_distinct_names_counterexample`. -/
theorem c1_first_asset_wins_witness :
    fsRead (TutorialCrawlerService.downloadPageAssetsFs (fun _ => some "body")
        [] [⟨"https://a.com/x/style.css", some ⟨"/x/style.css"⟩⟩,
            ⟨"https://a.com/y/style.css", some ⟨"/y/style.css"⟩⟩])
      ("assets/" ++ TutorialCrawlerService.extractFileName
        ⟨"https://a.com/x/style.css", some ⟨"/x/style.css"⟩⟩) = some "body" :=
  c1_first_asset_wins (fun _ => some "body") _ _ "body" (by decide) rfl

/-! ## Claim C2: the local-name mapping is a function of the source URL alone -/

/-- C2, counterexample: re-rewriting the same document twice does not
always yield identical `(sourceUrl, localFileName)` mappings.  For the
relative reference `styles.css` — which `new URL` cannot parse without
a base — `DownloadService.extractFileName` falls back to
`asset_` + `Date.now()`, so two runs of `processHtmlForOffline` at
different clock values produce different mappings for the same input
document. -/
theorem c2_determinism_counterexample :
    DownloadService.rewriteMapping [⟨"styles.css", none⟩] 1
      ≠ DownloadService.rewriteMapping [⟨"styles.css", none⟩] 2 := by
  decide

/-- C2, amended: the mapping is a function of the source URL alone for
every reference the `URL` constructor can parse; only unparseable
references hit the timestamp fallback.  Two rewrite runs at different
clock values agree whenever every matched asset reference parses. -/
theorem c2_deterministic_for_parsed_urls (assetRefs : List UrlInput) (n1 n2 : Nat)
    (h : ∀ u ∈ assetRefs, u.parsed.isSome = true) :
    DownloadService.rewriteMapping assetRefs n1
      = DownloadService.rewriteMapping assetRefs n2 := by
  induction assetRefs with
  | nil => rfl
  | cons u rest ih =>
    have hu := h u (List.mem_cons_self u rest)
    have hrest := ih fun v hv => h v (List.mem_cons_of_mem u hv)
    simp only [DownloadService.rewriteMapping, List.map_cons] at hrest ⊢
    refine congrArg₂ List.cons ?_ hrest
    rcases u with ⟨raw, parsed⟩
    rcases parsed with _ | p
    · simp at hu
    · rfl

/-- C2 witness: `c2_deterministic_for_parsed_urls` on a parseable
stylesheet URL at two different clock values. -/
theorem c2_deterministic_witness :
    DownloadService.rewriteMapping [⟨"https://h/a.css", some ⟨"/a.css"⟩⟩] 1
      = DownloadService.rewriteMapping [⟨"https://h/a.css", some ⟨"/a.css"⟩⟩] 2 :=
  c2_deterministic_for_parsed_urls [⟨"https://h/a.css", some ⟨"/a.css"⟩⟩] 1 2
    (by decide)

/-! ## Claim C3: per-name idempotence of the asset write -/

/-- C3, counterexample: the claim does not hold of the single-site
pipeline.  `DownloadService.downloadAssets` performs no existence check:
with `assets/style.css` already present holding `"old"`, re-running the
asset write for a URL with the same local name replaces the file's
content with the newly fetched `"new"` — the existing file is
overwritten, not left unchanged. -/
theorem c3_overwrite_counterexample :
    fsRead (DownloadService.downloadAssetsFs (fun _ => some "new") 0
        [("assets/style.css", "old")]
        [⟨"https://a.com/style.css", some ⟨"/style.css"⟩⟩])
      "assets/style.css" = some "new"
    ∧ (some "new" : Option String) ≠ some "old" := by
  decide

/-- C3, amended: idempotence holds of the tutorial pipeline.
`downloadPageAssets` skips the write entirely when a file of the asset's
local name already exists, leaving the whole file system — in
particular the existing file's content — unchanged and raising no
error. -/
theorem c3_write_asset_idempotent (fetch : UrlInput → Option String)
    (fs : FileSys) (u : UrlInput)
    (h : fsExists fs ("assets/" ++ TutorialCrawlerService.extractFileName u) = true) :
    TutorialCrawlerService.downloadPageAssetsFs fetch fs [u] = fs := by
  simp [TutorialCrawlerService.downloadPageAssetsFs, h]

/-- C3 witness: `c3_write_asset_idempotent` re-running the write for an
existing `assets/style.css`. -/
theorem c3_write_asset_idempotent_witness :
    TutorialCrawlerService.downloadPageAssetsFs (fun _ => some "new")
        [("assets/style.css", "old")]
        [⟨"https://a.com/style.css", some ⟨"/style.css"⟩⟩]
      = [("assets/style.css", "old")] :=
  c3_write_asset_idempotent (fun _ => some "new") [("assets/style.css", "old")]
    ⟨"https://a.com/style.css", some ⟨"/style.css"⟩⟩ (by decide)

/-! ## Claim C4: finalization fails when zero pages were downloaded -/

/-- C4, counterexample: a tutorial snapshot whose only page fails to
download still finalizes with terminal status `'completed'` and a
downloaded-page count of zero; the claimed transition to `failed` does
not happen. -/
theorem c4_zero_pages_counterexample :
    TutorialCrawlerService.downloadTutorialRun true true [false]
      = ("completed", 0)
    ∧ ("completed" : String) ≠ "failed" := by
  decide

/-- C4, amended: finalization never inspects the downloaded-page count.
Whenever the attempt reaches finalization (directory creation and the
closing index/metadata writes succeed), the terminal status is
`'completed'` regardless of how many pages were successfully
downloaded; `'failed'` is reported only when an exception escapes to
the `catch` handler. -/
theorem c4_finalize_always_completed (pageResults : List Bool) :
    (TutorialCrawlerService.downloadTutorialRun true true pageResults).1
      = "completed" := by
  simp [TutorialCrawlerService.downloadTutorialRun]

/-! ## Claim C5: process-wide single-flight admission -/

/-- C5, counterexample: the tutorial downloader is not gated.  With the
single-flight flag of `DownloadService` set (another download active),
`downloadTutorial` does not fail with an already-in-progress error: it
proceeds straight to creating the tutorial directory. -/
theorem c5_no_gate_counterexample :
    TutorialCrawlerService.downloadTutorialStart true "tutorials/t1"
      = Except.ok [Effect.mkdirE "tutorials/t1"] :=
  rfl

/-- C5, amended: single-flight admission is enforced only by
`DownloadService.downloadSite` for its own downloads: while one is
active, a second `downloadSite` call throws the already-in-progress
error before creating any directory or writing any metadata (the error
result carries no effects). -/
theorem c5_download_site_single_flight (siteId sitePath url : String) :
    DownloadService.downloadSiteStart true siteId sitePath url
      = Except.error "Another download is already in progress" :=
  rfl

/-! ## Claim C7: user-agent header and timeout on every request -/

/-- C7, counterexample: the seed-page request of
`crawlSiteForTutorials` is a plain `fetch(url)` — it carries no headers
at all (in particular not the identifying user-agent) and is not
subject to any timeout; the same holds of the tutorial page and asset
requests. -/
theorem c7_bare_fetch_counterexample :
    (TutorialCrawlerService.crawlSeedRequest "https://www.w3schools.com").headers = []
    ∧ (TutorialCrawlerService.crawlSeedRequest "https://www.w3schools.com").timeoutMs
        = none
    ∧ (TutorialCrawlerService.tutorialPageRequest "https://www.w3schools.com/html").headers
        = []
    ∧ (TutorialCrawlerService.tutorialAssetRequest "https://www.w3schools.com/a.css").timeoutMs
        = none := by
  decide

/-- C7, amended: only the requests issued through
`DownloadService.fetchWithTimeout` — the single-site main page and its
assets — carry the constant identifying user-agent header and the
10 000 ms per-request timeout; the tutorial crawler's requests carry
neither. -/
theorem c7_download_service_requests (url : String) :
    (DownloadService.mainPageRequest url).headers
        = [("User-Agent", DownloadService.userAgentValue)]
    ∧ (DownloadService.mainPageRequest url).timeoutMs
        = some DownloadService.defaultTimeoutMs
    ∧ (DownloadService.assetRequest url).headers
        = [("User-Agent", DownloadService.userAgentValue)]
    ∧ (DownloadService.assetRequest url).timeoutMs
        = some DownloadService.defaultTimeoutMs
    ∧ (TutorialCrawlerService.crawlSeedRequest url).headers = []
    ∧ (TutorialCrawlerService.discoverPagesRequest url).timeoutMs = none :=
  ⟨rfl, rfl, rfl, rfl, rfl, rfl⟩

/-! ## Claim C10: bookkeeping is reset after every downloadSite return -/

/-- C10: every admitted `downloadSite` call — whether its body succeeds
or throws at any stage — returns with the `finally` block having reset
the in-progress flag, the current download id and the progress callback
to their idle values; a call rejected at the admission gate touches no
bookkeeping at all (the state is exactly the caller's), so no attempt
ever leaves the gate stuck closed on its own behalf. -/
theorem c10_bookkeeping_reset (st : DownloadService.ServiceState)
    (hasCallback : Bool) (siteId : String) (bodyOk : Bool) :
    (st.downloadInProgress = false →
      (DownloadService.downloadSiteRun st hasCallback siteId bodyOk).1
        = DownloadService.idleState)
    ∧ (st.downloadInProgress = true →
      (DownloadService.downloadSiteRun st hasCallback siteId bodyOk).1 = st) := by
  constructor <;> intro h <;>
    simp [DownloadService.downloadSiteRun, DownloadService.idleState, h]

/-- C10 witness: `c10_bookkeeping_reset` on a failing body started from
the idle state: the returned state is idle again. -/
theorem c10_bookkeeping_reset_witness :
    (DownloadService.downloadSiteRun ⟨false, none, false⟩ true "site1" false).1
      = DownloadService.idleState :=
  (c10_bookkeeping_reset ⟨false, none, false⟩ true "site1" false).1 rfl

/-! ## Claim C9: discovery output is bounded (20 tutorials, 50 pages each) -/

/-- C9: for every crawl — whatever the seed markup's candidate matches,
page matches, URL resolution and fetch outcomes are — `discoverTutorials`
returns at most 20 tutorial units, and every unit's page list has at
most 50 entries, even when more matching candidate links are present. -/
theorem c9_discovery_bounded (parseFull : String → Option ParsedFullUrl)
    (resolve : String → String → String) (baseUrl : String)
    (fetchOkOf : String → Bool)
    (pageMatchesOf : String → List TutorialCrawlerService.PageMatch)
    (cands : List TutorialCrawlerService.CandidateMatch) :
    (TutorialCrawlerService.discoverTutorials parseFull resolve baseUrl
        fetchOkOf pageMatchesOf cands).length ≤ 20
    ∧ ∀ t ∈ TutorialCrawlerService.discoverTutorials parseFull resolve baseUrl
        fetchOkOf pageMatchesOf cands, t.pages.length ≤ 50 := by
  constructor
  · rw [TutorialCrawlerService.discoverTutorials]
    simp
  · intro t ht
    rw [TutorialCrawlerService.discoverTutorials] at ht
    have ht' := (List.take_sublist 20 _).subset ht
    refine foldl_mem_invariant (fun t => t.pages.length ≤ 50) _ ?_ cands [] (by simp) t ht'
    intro acc c hacc t ht
    by_cases hvalid : TutorialCrawlerService.isValidTutorialLink c.title c.url
    · simp only [hvalid, if_true] at ht
      by_cases hdup : acc.any fun t =>
          t.id = TutorialCrawlerService.generateTutorialId c.title (resolve c.url baseUrl)
      · simp only [hdup, if_true] at ht
        exact hacc t ht
      · simp only [hdup] at ht
        rcases List.mem_append.mp ht with hmem | hmem
        · exact hacc t hmem
        · rcases List.mem_singleton.mp hmem with rfl
          exact discoverTutorialPages_length_le parseFull resolve _ c.title _ _
    · simp only [hvalid, if_false] at ht
      exact hacc t ht

/-- C9 witness: `c9_discovery_bounded` on a concrete crawl with one
valid candidate whose entry fetch fails, yielding a single one-page
unit; both bounds are discharged there. -/
theorem c9_discovery_bounded_witness :
    (TutorialCrawlerService.discoverTutorials (fun _ => none) (fun r _ => r) "b"
        (fun _ => false) (fun _ => [])
        [⟨"t", "tutorial", "Programming"⟩]).length ≤ 20
    ∧ (⟨"tutorial_dA==", "tutorial", "t",
         [⟨"tutorial_dA==_main", "tutorial - Introduction", "t", 0, false⟩],
         1, 0, "Programming", "Intermediate", 50000⟩ : Tutorial).pages.length ≤ 50 :=
  ⟨(c9_discovery_bounded (fun _ => none) (fun r _ => r) "b" (fun _ => false)
      (fun _ => []) [⟨"t", "tutorial", "Programming"⟩]).1,
   (c9_discovery_bounded (fun _ => none) (fun r _ => r) "b" (fun _ => false)
      (fun _ => []) [⟨"t", "tutorial", "Programming"⟩]).2 _ (by decide)⟩

/-! ## Claim C6: progress percentages are monotone, bounded, and end terminally -/

/-- Percent bounds of the asset-loop events: under the loop invariant
`completed + remaining ≤ total`, every emitted percentage lies between
the entry percentage `66 + (completed/total)*34` and 100. -/
theorem assetLoopEvents_percent_bounds (t : Nat) :
    ∀ (assets : List (String × Bool)) (c : Nat), c + assets.length ≤ t →
      ∀ q ∈ eventPercents (DownloadService.assetLoopEvents t assets c),
        66 + ((c : Rat) / t) * 34 ≤ q ∧ q ≤ 100 := by
  intro assets
  induction assets with
  | nil =>
    intro c h q hq
    simp [DownloadService.assetLoopEvents, eventPercents] at hq
  | cons a rest ih =>
    rcases a with ⟨name, ok⟩
    intro c h q hq
    simp only [List.length_cons] at h
    have ht : 0 < t := by omega
    have htr : (0 : Rat) < t := by exact_mod_cast ht
    cases ok with
    | false =>
      rw [show DownloadService.assetLoopEvents t ((name, false) :: rest) c
          = DownloadService.assetLoopEvents t rest c from by
        simp [DownloadService.assetLoopEvents]] at hq
      exact ih c (by omega) q hq
    | true =>
      have hstep : ((c : Rat)) / t ≤ ((c : Rat) + 1) / t := by
        gcongr
        linarith
      have hstep34 : ((c : Rat) / t) * 34 ≤ (((c : Rat) + 1) / t) * 34 :=
        mul_le_mul_of_nonneg_right hstep (by norm_num)
      have hle1 : ((c : Rat) + 1) / t ≤ 1 := by
        rw [div_le_one htr]
        exact_mod_cast (by omega : c + 1 ≤ t)
      rw [show DownloadService.assetLoopEvents t ((name, true) :: rest) c
          = DownloadService.mkProgress ("Downloaded " ++ name) (c + 1) t
              (66 + ((c + 1 : Rat) / t) * 34)
            :: DownloadService.assetLoopEvents t rest (c + 1) from by
        simp [DownloadService.assetLoopEvents]] at hq
      simp only [eventPercents, List.map_cons, List.mem_cons,
        DownloadService.mkProgress] at hq
      rcases hq with rfl | hq
      · refine ⟨le_min (by linarith) (by nlinarith), min_le_right _ _⟩
      · have hrest := ih (c + 1) (by omega) q hq
        refine ⟨le_trans ?_ hrest.1, hrest.2⟩
        push_cast
        linarith

/-- The percentage sequence of the asset-loop events is non-decreasing
(every later event's percentage is at least every earlier one's). -/
theorem assetLoopEvents_percent_pairwise (t : Nat) :
    ∀ (assets : List (String × Bool)) (c : Nat), c + assets.length ≤ t →
      List.Pairwise (fun a b => a ≤ b)
        (eventPercents (DownloadService.assetLoopEvents t assets c)) := by
  intro assets
  induction assets with
  | nil =>
    intro c h
    simp [DownloadService.assetLoopEvents, eventPercents]
  | cons a rest ih =>
    rcases a with ⟨name, ok⟩
    intro c h
    simp only [List.length_cons] at h
    cases ok with
    | false =>
      rw [show DownloadService.assetLoopEvents t ((name, false) :: rest) c
          = DownloadService.assetLoopEvents t rest c from by
        simp [DownloadService.assetLoopEvents]]
      exact ih c (by omega)
    | true =>
      rw [show DownloadService.assetLoopEvents t ((name, true) :: rest) c
          = DownloadService.mkProgress ("Downloaded " ++ name) (c + 1) t
              (66 + ((c + 1 : Rat) / t) * 34)
            :: DownloadService.assetLoopEvents t rest (c + 1) from by
        simp [DownloadService.assetLoopEvents]]
      simp only [eventPercents, List.map_cons, DownloadService.mkProgress]
      refine List.pairwise_cons.mpr ⟨?_, ih (c + 1) (by omega)⟩
      intro q hq
      have hb := (assetLoopEvents_percent_bounds t rest (c + 1) (by omega) q hq).1
      push_cast at hb
      exact le_trans (min_le_left _ _) hb

/-- C6, counterexample: the percentage sequence of an attempt does not
always end with a terminal event.  When the main-page fetch fails, the
only event delivered is the non-terminal `'Starting download...'`
checkpoint at 0% — the attempt throws (`.2 = false`) and
`DownloadService` emits no completion or failure event at all. -/
theorem c6_no_terminal_counterexample :
    ((DownloadService.performDownloadEvents false []).1.map
        DownloadService.isTerminalEvent).getLast? = some false
    ∧ (DownloadService.performDownloadEvents false []).2 = false := by
  decide

/-- C6, amended: within one snapshot attempt the percentage sequence
delivered to the callback is non-decreasing and every value lies in
[0, 100]; a successful attempt's sequence moreover ends with the
terminal completion event.  A failed attempt's sequence, however, simply
stops at the last checkpoint reached — no terminal progress event is
delivered (see the counterexample). -/
theorem c6_progress_monotone_bounded (mainFetchOk : Bool)
    (assets : List (String × Bool)) :
    List.Pairwise (fun a b => a ≤ b)
        (eventPercents (DownloadService.performDownloadEvents mainFetchOk assets).1)
    ∧ (∀ e ∈ (DownloadService.performDownloadEvents mainFetchOk assets).1,
        0 ≤ e.percent ∧ e.percent ≤ 100)
    ∧ (mainFetchOk = true →
        ((DownloadService.performDownloadEvents mainFetchOk assets).1.map
            DownloadService.isTerminalEvent).getLast? = some true) := by
  cases mainFetchOk with
  | false =>
    refine ⟨?_, ?_, ?_⟩
    · simp [DownloadService.performDownloadEvents, eventPercents]
    · intro e he
      simp only [DownloadService.performDownloadEvents, Bool.false_eq_true, if_false,
        List.mem_singleton] at he
      subst he
      constructor <;> norm_num [DownloadService.mkProgress]
    · intro h
      simp at h
  | true =>
    have htrace : (DownloadService.performDownloadEvents true assets).1
        = [DownloadService.mkProgress "Starting download..." 0 1 0,
           DownloadService.mkProgress "Processing main page..." 1 3 33,
           DownloadService.mkProgress "Downloading assets..." 2 3 66]
          ++ DownloadService.assetLoopEvents assets.length assets 0
          ++ [DownloadService.mkProgress "Download completed!" 3 3 100] := rfl
    have hbounds := assetLoopEvents_percent_bounds assets.length assets 0 (by omega)
    have hA_lb : ∀ q ∈ eventPercents
        (DownloadService.assetLoopEvents assets.length assets 0), (66 : Rat) ≤ q := by
      intro q hq
      have := (hbounds q hq).1
      simpa using this
    have hA_ub : ∀ q ∈ eventPercents
        (DownloadService.assetLoopEvents assets.length assets 0), q ≤ (100 : Rat) :=
      fun q hq => (hbounds q hq).2
    have hpair := assetLoopEvents_percent_pairwise assets.length assets 0 (by omega)
    refine ⟨?_, ?_, ?_⟩
    · rw [htrace]
      simp only [eventPercents, List.map_append, List.map_cons, List.map_nil]
      refine List.pairwise_append.mpr ⟨List.pairwise_append.mpr ⟨?_, hpair, ?_⟩, ?_, ?_⟩
      · norm_num [DownloadService.mkProgress, List.pairwise_cons]
      · intro x hx y hy
        have h66 : x ≤ (66 : Rat) := by
          simp only [DownloadService.mkProgress, List.mem_cons, List.mem_singleton,
            List.not_mem_nil, or_false] at hx
          rcases hx with rfl | rfl | rfl <;> norm_num
        exact le_trans h66 (hA_lb y hy)
      · norm_num
      · intro x hx y hy
        simp only [DownloadService.mkProgress, List.mem_singleton] at hy
        subst hy
        rcases List.mem_append.mp hx with hx' | hx'
        · have h66 : x ≤ (66 : Rat) := by
            simp only [DownloadService.mkProgress, List.mem_cons, List.mem_singleton,
              List.not_mem_nil, or_false] at hx'
            rcases hx' with rfl | rfl | rfl <;> norm_num
          refine le_trans h66 ?_
          norm_num
        · refine le_trans (hA_ub x hx') ?_
          norm_num
    · intro e he
      rw [htrace] at he
      rcases List.mem_append.mp he with he' | he'
      · rcases List.mem_append.mp he' with he'' | he''
        · simp only [List.mem_cons, List.mem_singleton, List.not_mem_nil,
            or_false] at he''
          rcases he'' with rfl | rfl | rfl <;>
            constructor <;> norm_num [DownloadService.mkProgress]
        · have hm : e.percent ∈ eventPercents
              (DownloadService.assetLoopEvents assets.length assets 0) :=
            List.mem_map_of_mem _ he''
          exact ⟨le_trans (by norm_num) (hA_lb _ hm), hA_ub _ hm⟩
      · simp only [List.mem_singleton] at he'
        subst he'
        constructor <;> norm_num [DownloadService.mkProgress]
    · intro _
      rw [htrace, List.map_append, List.map_singleton, List.getLast?_concat]
      rfl

/-- C6 witness: `c6_progress_monotone_bounded` on a successful attempt
with one successfully downloaded asset: the start event's percentage is
within bounds and the trace ends with the terminal event. -/
theorem c6_progress_witness :
    (0 ≤ (DownloadService.mkProgress "Starting download..." 0 1 0).percent
      ∧ (DownloadService.mkProgress "Starting download..." 0 1 0).percent ≤ 100)
    ∧ ((DownloadService.performDownloadEvents true [("logo.png", true)]).1.map
        DownloadService.isTerminalEvent).getLast? = some true :=
  ⟨(c6_progress_monotone_bounded true [("logo.png", true)]).2.1
      (DownloadService.mkProgress "Starting download..." 0 1 0)
      (by simp [DownloadService.performDownloadEvents]),
   (c6_progress_monotone_bounded true [("logo.png", true)]).2.2 rfl⟩

/-! ## Claim C8: regex fallback vs structured rewrite path -/

/-- C8, counterexample: the fallback does not produce identical
`AssetReference` results for all well-formed input.  On the well-formed
document `<script src="f.ttf"></script>` the structured path rewrites
the font reference (its `isAssetUrl` table includes `.ttf`) while the
fallback regex — whose alternation stops at the eight extensions
`css|js|png|jpg|jpeg|gif|svg|ico` — matches nothing. -/
theorem c8_fallback_divergence_counterexample :
    TutorialCrawlerService.structuredAssets (fun _ => none)
        [⟨"script", none, some "f.ttf", none⟩]
      ≠ TutorialCrawlerService.fallbackAssets (fun _ => none)
        [⟨"script", none, some "f.ttf", none⟩] := by
  decide

/-- C8, amended: the two paths agree exactly on documents whose
elements are all `agreeableElement`: each asset reference sits on a
structured-selected element (`img`, stylesheet `link`, `script`)
carrying a single `src`/`href` attribute whose value is cleanly
captured in full by the fallback pattern and accepted by `isAssetUrl`.
Outside that fragment they diverge: font extensions are rewritten only
by the structured path, and `src`/`href` on unselected elements only by
the fallback. -/
theorem c8_agreement_on_agreeable (parseUrl : String → Option ParsedUrl)
    (doc : List HtmlElement)
    (h : ∀ e ∈ doc, TutorialCrawlerService.agreeableElement e = true) :
    TutorialCrawlerService.structuredAssets parseUrl doc
      = TutorialCrawlerService.fallbackAssets parseUrl doc := by
  induction doc with
  | nil => rfl
  | cons e rest ih =>
    have he := h e (List.mem_cons_self e rest)
    have hrest := ih fun x hx => h x (List.mem_cons_of_mem e hx)
    rcases e with ⟨tag, rel, src, href⟩
    rcases src with _ | v <;> rcases href with _ | w
    · simp [TutorialCrawlerService.structuredAssets,
        TutorialCrawlerService.fallbackAssets, jsOrAttr, hrest]
    · simp only [TutorialCrawlerService.agreeableElement, Bool.and_eq_true,
        beq_iff_eq] at he
      obtain ⟨⟨hsel, hcap⟩, hasset⟩ := he
      simp [TutorialCrawlerService.structuredAssets,
        TutorialCrawlerService.fallbackAssets, jsOrAttr, hsel, hcap, hasset, hrest]
    · simp only [TutorialCrawlerService.agreeableElement, Bool.and_eq_true,
        beq_iff_eq] at he
      obtain ⟨⟨hsel, hcap⟩, hasset⟩ := he
      have hv : v ≠ "" := by
        intro h0
        subst h0
        exact (by decide : TutorialCrawlerService.fallbackCapture "" ≠ some "") hcap
      simp [TutorialCrawlerService.structuredAssets,
        TutorialCrawlerService.fallbackAssets, jsOrAttr, hsel, hcap, hasset, hv, hrest]
    · simp [TutorialCrawlerService.agreeableElement] at he

/-- C8 witness: `c8_agreement_on_agreeable` on the well-formed
single-image document `<img src="logo.png">`: both paths produce the
same single asset reference. -/
theorem c8_agreement_witness :
    TutorialCrawlerService.structuredAssets (fun _ => none)
        [⟨"img", none, some "logo.png", none⟩]
      = TutorialCrawlerService.fallbackAssets (fun _ => none)
        [⟨"img", none, some "logo.png", none⟩] :=
  c8_agreement_on_agreeable (fun _ => none) [⟨"img", none, some "logo.png", none⟩]
    (by decide)
